import Mathlib

/-!
Shallow embedding of `src/utils.py` from the `slack_utilities` repository.

The module is a thin wrapper around the Slack SDK.  Each public operation is
modelled as a pure function over a `World` that packages everything the Python
code reads from its environment: the cached configuration (`get_config`), the
channel listing returned by `client.files_list`, the HTTP transport used by
`requests.get`, the local filesystem (`os.path.exists`), and the responses of
the remote upload and message endpoints.  Every operation returns a pair of
an `Except Err` result (normal return value or raised exception) and the list
of remote/filesystem actions it performed, in order, so that properties such
as "no byte-fetch call is made" are statements about the returned trace.

Remote `SlackApiError`s are re-raised unchanged by every `except SlackApiError`
block in the source (log-and-raise), so the embedding models the listing,
upload and message calls at their success behaviour; the one transport failure
branch with its own control flow (`raise_for_status` in `download_file`) is
modelled explicitly via `World.fetchOk`.
-/

namespace SlackUtils

/-- One entry of the `"files"` array returned by `client.files_list`, with the
three fields `get_file_info` reads: `id`, `name`, `url_private`. -/
structure FileData where
  id : String
  name : String
  url_private : String
deriving Repr, DecidableEq, Inhabited

/-- The dict built by `get_file_info`: keys `file_name`, `url_private`,
`file_id`. -/
structure FileInfo where
  file_name : String
  url_private : String
  file_id : String
deriving Repr, DecidableEq, Inhabited

/-- The configuration dict returned by `get_config`: keys `channel_id`,
`bot_token`, `user_token`, each `os.getenv` result being possibly `None`. -/
structure Config where
  channel_id : Option String
  bot_token : Option String
  user_token : Option String
deriving Repr, DecidableEq, Inhabited

/-- The `"file"` object of a `files_upload_v2` response; `upload_file` reads
its `permalink_public` key with `.get`, which yields `None` when absent. -/
structure UploadedFile where
  permalink_public : Option String
deriving Repr, DecidableEq, Inhabited

/-- A `files_upload_v2` response as read by `upload_file`:
`response.get("file", \x7b\x7d)` yields `none` when the `"file"` key is absent. -/
structure UploadResponse where
  file? : Option UploadedFile
deriving Repr, DecidableEq, Inhabited

/-- The exceptions raised by `src/utils.py` itself: `ValueError` (with its
message), `FileNotFoundError` (with its message), and
`requests.exceptions.RequestException` from `raise_for_status`. -/
inductive Err where
  | valueError (msg : String)
  | fileNotFoundError (msg : String)
  | requestError
deriving Repr, DecidableEq

/-- One observable remote or filesystem action performed by an operation. -/
inductive Effect where
  | filesList (channel : String)
  | httpGet (url : String)
  | fileWrite (path : String) (content : List Nat)
  | filesDelete (fileId : String)
  | filesUpload (channel : String) (title : String) (path : String)
      (comment : Option String)
  | chatPostMessage (channel : String) (text : String)
deriving Repr, DecidableEq

/-- Everything the Python module reads from outside: configuration, the
channel listing, the byte transport, the local filesystem and the remote
responses. -/
structure World where
  config : Config
  files : List FileData
  fetchOk : String → Bool
  fetchBody : String → List Nat
  pathExists : String → Bool
  uploadResponse : UploadResponse
  chatResponse : String

/-- Python's `a or b` on optional strings, as used in
`channel_id = channel_id or config['channel_id']`: both `None` and the empty
string are falsy and fall through to `b`. -/
def pyOr (a b : Option String) : Option String :=
  match a with
  | none => b
  | some s => if s = "" then b else some s

/-- `_create_bot_client`: falls back to `config['bot_token']` only when the
argument `is None`, then raises `ValueError` when still `None`; the resulting
`WebClient` is modelled by the token it wraps. -/
def create_bot_client (cfg : Config) (bot_token : Option String) :
    Except Err String :=
  let bt := match bot_token with
    | none => cfg.bot_token
    | some t => some t
  match bt with
  | none =>
      Except.error (Err.valueError
        "bot_token not provided and BOT_TOKEN not in environment")
  | some t => Except.ok t

/-- `_create_user_client`: same shape as `_create_bot_client` but over
`user_token` / `USER_TOKEN`. -/
def create_user_client (cfg : Config) (user_token : Option String) :
    Except Err String :=
  let ut := match user_token with
    | none => cfg.user_token
    | some t => some t
  match ut with
  | none =>
      Except.error (Err.valueError
        "user_token not provided and USER_TOKEN not in environment")
  | some t => Except.ok t

/-- The `ValueError` message raised when no channel id is available. -/
def channelMissingMsg : String :=
  "channel_id not provided and CHANNEL_ID not in environment"

/-- The `ValueError` message `poll_channel` raises when more than one file is
found; it interpolates the observed count. -/
def pollInvariantMsg (file_count : Nat) : String :=
  "During polling, found " ++ toString file_count ++
    " files in the channel. " ++
    "There can only be max one file in the channel. " ++
    "Manually delete the unnecessary files in the channel."

/-- The `ValueError` message `get_file_info` raises when more than one file is
found; it interpolates the observed count. -/
def infoInvariantMsg (file_count : Nat) : String :=
  "There are " ++ toString file_count ++ " files in the channel. " ++
    "There can only be max one file in the channel."

/-- `poll_channel(channel_id=None, bot_token=None)`. -/
def poll_channel (w : World) (channel_id bot_token : Option String) :
    Except Err Bool × List Effect :=
  let cfg := w.config
  let cid := pyOr channel_id cfg.channel_id
  let bt := pyOr bot_token cfg.bot_token
  match cid with
  | none => (Except.error (Err.valueError channelMissingMsg), [])
  | some ch =>
    match create_bot_client cfg bt with
    | Except.error e => (Except.error e, [])
    | Except.ok _client =>
      let file_count := w.files.length
      if file_count = 1 then
        (Except.ok true, [Effect.filesList ch])
      else if file_count = 0 then
        (Except.ok false, [Effect.filesList ch])
      else
        (Except.error (Err.valueError (pollInvariantMsg file_count)),
          [Effect.filesList ch])

/-- `get_file_info(channel_id=None, bot_token=None)`; on a singleton listing
it reads `response["files"][0]`. -/
def get_file_info (w : World) (channel_id bot_token : Option String) :
    Except Err (Option FileInfo) × List Effect :=
  let cfg := w.config
  let cid := pyOr channel_id cfg.channel_id
  let bt := pyOr bot_token cfg.bot_token
  match cid with
  | none => (Except.error (Err.valueError channelMissingMsg), [])
  | some ch =>
    match create_bot_client cfg bt with
    | Except.error e => (Except.error e, [])
    | Except.ok _client =>
      let file_count := w.files.length
      if file_count = 1 then
        let file_data := w.files.headI
        (Except.ok (some
            { file_name := file_data.name
              url_private := file_data.url_private
              file_id := file_data.id }),
          [Effect.filesList ch])
      else if file_count = 0 then
        (Except.ok none, [Effect.filesList ch])
      else
        (Except.error (Err.valueError (infoInvariantMsg file_count)),
          [Effect.filesList ch])

/-- `download_response.iter_content(chunk_size=8192)`: the payload split into
successive chunks of at most 8192 bytes. -/
def iterContent (content : List Nat) : List (List Nat) :=
  match content with
  | [] => []
  | x :: xs => (x :: xs).take 8192 :: iterContent ((x :: xs).drop 8192)
termination_by content.length
decreasing_by simp; omega

/-- The download write loop: `for chunk in ...: if chunk: f.write(chunk)`;
the local file ends up holding the chunks appended in order. -/
def writeLoop (chunks : List (List Nat)) : List Nat :=
  chunks.foldl (fun acc chunk => if chunk.isEmpty then acc else acc ++ chunk) []

/-- `download_file(output_dir, channel_id=None, bot_token=None)`. -/
def download_file (w : World) (output_dir : String)
    (channel_id bot_token : Option String) :
    Except Err (Option String) × List Effect :=
  let cfg := w.config
  let bt := pyOr bot_token cfg.bot_token
  match get_file_info w channel_id bt with
  | (Except.error e, tr) => (Except.error e, tr)
  | (Except.ok none, tr) => (Except.ok none, tr)
  | (Except.ok (some file_info), tr) =>
    let output_path := output_dir ++ "/" ++ file_info.file_name
    if w.fetchOk file_info.url_private then
      let written := writeLoop (iterContent (w.fetchBody file_info.url_private))
      (Except.ok (some output_path),
        tr ++ [Effect.httpGet file_info.url_private,
               Effect.fileWrite output_path written])
    else
      (Except.error Err.requestError, tr ++ [Effect.httpGet file_info.url_private])

/-- `os.path.basename` on the POSIX paths this repository uses: the part of
the path after the last `/` (the whole path when it has no `/`). -/
def basename (path : String) : String :=
  String.mk ((path.data.reverse.takeWhile (fun c => c != '/')).reverse)

/-- `upload_file(file_path, title=None, initial_comment=None, channel_id=None,
bot_token=None)`; its declared return is `str` but
`response.get("file", \x7b\x7d).get("permalink_public")` can be `None`, so the
result is modelled as `Option String`. -/
def upload_file (w : World) (file_path : String)
    (title initial_comment channel_id bot_token : Option String) :
    Except Err (Option String) × List Effect :=
  let cfg := w.config
  let cid := pyOr channel_id cfg.channel_id
  let bt := pyOr bot_token cfg.bot_token
  match cid with
  | none => (Except.error (Err.valueError channelMissingMsg), [])
  | some ch =>
    if w.pathExists file_path then
      let t := match title with
        | none => basename file_path
        | some s => s
      match create_bot_client cfg bt with
      | Except.error e => (Except.error e, [])
      | Except.ok _client =>
        let file_url := w.uploadResponse.file?.bind UploadedFile.permalink_public
        (Except.ok file_url, [Effect.filesUpload ch t file_path initial_comment])
    else
      (Except.error (Err.fileNotFoundError ("File not found: " ++ file_path)), [])

/-- `delete_file(channel_id=None, user_token=None)`; note it calls
`get_file_info(channel_id)` with the bot token defaulted, and creates the
user client only after a file was found. -/
def delete_file (w : World) (channel_id user_token : Option String) :
    Except Err Bool × List Effect :=
  let cfg := w.config
  let cid := pyOr channel_id cfg.channel_id
  match cid with
  | none => (Except.error (Err.valueError channelMissingMsg), [])
  | some ch =>
    match get_file_info w (some ch) none with
    | (Except.error e, tr) => (Except.error e, tr)
    | (Except.ok none, tr) => (Except.ok false, tr)
    | (Except.ok (some file_info), tr) =>
      match create_user_client cfg user_token with
      | Except.error e => (Except.error e, tr)
      | Except.ok _client =>
        (Except.ok true, tr ++ [Effect.filesDelete file_info.file_id])

/-- `send_message(message, channel_id=None, bot_token=None)`; the response
dict of `chat_postMessage` is abstracted as `World.chatResponse`. -/
def send_message (w : World) (message : String)
    (channel_id bot_token : Option String) :
    Except Err String × List Effect :=
  let cfg := w.config
  let cid := pyOr channel_id cfg.channel_id
  let bt := pyOr bot_token cfg.bot_token
  match cid with
  | none => (Except.error (Err.valueError channelMissingMsg), [])
  | some ch =>
    match create_bot_client cfg bt with
    | Except.error e => (Except.error e, [])
    | Except.ok _client =>
      (Except.ok w.chatResponse, [Effect.chatPostMessage ch message])

/-- Replace only the configured `user_token` of a world, leaving everything
else unchanged; used to state which operations depend on the elevated
credential. -/
def setUserToken (w : World) (ut : Option String) : World :=
  { w with config := { w.config with user_token := ut } }

/-! ### Helper lemmas -/

/-- Applying the Python `or` fallback twice against the same default changes
nothing, so `download_file` passing its pre-resolved token into
`get_file_info` resolves to the same token. -/
theorem pyOr_pyOr (a b : Option String) : pyOr (pyOr a b) b = pyOr a b := by
  cases a with
  | none =>
      cases b with
      | none => rfl
      | some s =>
          by_cases h : s = "" <;> simp [pyOr, h]
  | some s =>
      by_cases h : s = "" <;> cases b <;> simp [pyOr, h]

/-- A channel id already resolved through the `or` fallback stays fixed when
resolved again, as happens when `delete_file` hands its resolved channel id to
`get_file_info`. -/
theorem pyOr_resolved (a b : Option String) (ch : String)
    (h : pyOr a b = some ch) : pyOr (some ch) b = some ch := by
  by_cases hch : ch = ""
  · subst hch
    cases a with
    | none =>
        simp only [pyOr] at h
        simp [pyOr, h]
    | some s =>
        simp only [pyOr] at h
        by_cases hs : s = ""
        · rw [if_pos hs] at h
          simp [pyOr, h]
        · rw [if_neg hs] at h
          cases h
          exact absurd rfl hs
  · simp [pyOr, hch]

/-- `get_file_info` on an empty listing: no error, absent result, one remote
read. -/
theorem get_file_info_empty (w : World) (cid bt : Option String) (ch tok : String)
    (hch : pyOr cid w.config.channel_id = some ch)
    (hbt : create_bot_client w.config (pyOr bt w.config.bot_token)
      = Except.ok tok)
    (hfiles : w.files = []) :
    get_file_info w cid bt = (Except.ok none, [Effect.filesList ch]) := by
  simp [get_file_info, hch, hbt, hfiles]

/-- `get_file_info` on a singleton listing: parses the one file, one remote
read. -/
theorem get_file_info_single (w : World) (cid bt : Option String)
    (ch tok : String) (fd : FileData)
    (hch : pyOr cid w.config.channel_id = some ch)
    (hbt : create_bot_client w.config (pyOr bt w.config.bot_token)
      = Except.ok tok)
    (hfiles : w.files = [fd]) :
    get_file_info w cid bt
      = (Except.ok (some ⟨fd.name, fd.url_private, fd.id⟩),
          [Effect.filesList ch]) := by
  simp [get_file_info, hch, hbt, hfiles]

/-- `get_file_info` on a listing with more than one file: raises the
invariant-violation `ValueError` naming the count, after the one remote
read. -/
theorem get_file_info_many (w : World) (cid bt : Option String) (ch tok : String)
    (hch : pyOr cid w.config.channel_id = some ch)
    (hbt : create_bot_client w.config (pyOr bt w.config.bot_token)
      = Except.ok tok)
    (hlen : 1 < w.files.length) :
    get_file_info w cid bt
      = (Except.error (Err.valueError (infoInvariantMsg w.files.length)),
          [Effect.filesList ch]) := by
  have h1 : w.files.length ≠ 1 := by omega
  have h0 : w.files.length ≠ 0 := by omega
  simp [get_file_info, hch, hbt, h1, h0]

/-- The chunks produced by `iter_content` reassemble to the payload. -/
theorem iterContent_flatten (content : List Nat) :
    (iterContent content).flatten = content := by
  induction content using iterContent.induct with
  | case1 => rw [iterContent]; rfl
  | case2 x xs ih =>
      rw [iterContent, List.flatten_cons, ih, List.take_append_drop]

/-- The write loop appends every non-empty chunk in order after the
accumulator (an empty chunk contributes nothing either way). -/
theorem writeLoop_foldl (a : List Nat) (cs : List (List Nat)) :
    cs.foldl (fun acc chunk => if chunk.isEmpty then acc else acc ++ chunk) a
      = a ++ cs.flatten := by
  induction cs generalizing a with
  | nil => simp
  | cons c cs ih =>
      rw [List.foldl_cons, ih, List.flatten_cons]
      cases c with
      | nil => simp
      | cons y ys => simp

/-- The bytes written by the chunked download loop are exactly the fetched
payload. -/
theorem writeLoop_iterContent (content : List Nat) :
    writeLoop (iterContent content) = content := by
  rw [writeLoop, writeLoop_foldl, iterContent_flatten, List.nil_append]

/-! ### Sample worlds used by concrete instantiations -/

/-- A configuration with every key present. -/
def sampleConfig : Config :=
  { channel_id := some "C1", bot_token := some "xoxb-1",
    user_token := some "xoxp-1" }

/-- A sample remote file. -/
def fdA : FileData :=
  { id := "F1", name := "a.png", url_private := "https://x/a" }

/-- A second sample remote file. -/
def fdB : FileData :=
  { id := "F2", name := "b.png", url_private := "https://x/b" }

/-- A world over a given configuration and channel listing, with a transport
that succeeds and serves two bytes, a filesystem holding only
`in/report.pdf`, and fixed remote responses. -/
def mkWorld (cfg : Config) (files : List FileData) : World :=
  { config := cfg
    files := files
    fetchOk := fun _ => true
    fetchBody := fun _ => [104, 105]
    pathExists := fun p => p == "in/report.pdf"
    uploadResponse :=
      { file? := some { permalink_public := some "https://slack/perma/F3" } }
    chatResponse := "ok" }

/-- Fully configured world, empty channel. -/
def w0 : World := mkWorld sampleConfig []

/-- Fully configured world, one file in the channel. -/
def w1 : World := mkWorld sampleConfig [fdA]

/-- Fully configured world, two files in the channel. -/
def w2 : World := mkWorld sampleConfig [fdA, fdB]

/-- World with no channel id configured. -/
def wNoChan : World :=
  mkWorld { channel_id := none, bot_token := some "xoxb-1",
            user_token := some "xoxp-1" } []

/-- World with no elevated/user credential, one file in the channel. -/
def wNoUser : World :=
  mkWorld { channel_id := some "C1", bot_token := some "xoxb-1",
            user_token := none } [fdA]

/-- World with no elevated/user credential, empty channel. -/
def wNoUserEmpty : World :=
  mkWorld { channel_id := some "C1", bot_token := some "xoxb-1",
            user_token := none } []

/-! ### Claims -/

/-- C1: on a successful listing, `poll_channel` returns `False` when the file
count is 0, `True` when it is exactly 1, and when it is greater than 1 raises
the invariant-violation `ValueError` instead of returning, with a message
naming the observed count. -/
theorem C1_poll_count_decision (w : World) (cid bt : Option String)
    (ch tok : String)
    (hch : pyOr cid w.config.channel_id = some ch)
    (hbt : create_bot_client w.config (pyOr bt w.config.bot_token)
      = Except.ok tok) :
    (w.files.length = 0 →
      poll_channel w cid bt = (Except.ok false, [Effect.filesList ch])) ∧
    (w.files.length = 1 →
      poll_channel w cid bt = (Except.ok true, [Effect.filesList ch])) ∧
    (1 < w.files.length →
      poll_channel w cid bt
        = (Except.error (Err.valueError (pollInvariantMsg w.files.length)),
            [Effect.filesList ch]) ∧
      ∃ a b, pollInvariantMsg w.files.length
        = a ++ (toString w.files.length ++ b)) := by
  refine ⟨fun h0 => ?_, fun h1 => ?_, fun h2 => ⟨?_, ?_⟩⟩
  · simp [poll_channel, hch, hbt, h0]
  · simp [poll_channel, hch, hbt, h1]
  · have hne1 : w.files.length ≠ 1 := by omega
    have hne0 : w.files.length ≠ 0 := by omega
    simp [poll_channel, hch, hbt, hne1, hne0]
  · exact ⟨"During polling, found ",
      " files in the channel. " ++
        ("There can only be max one file in the channel. " ++
          "Manually delete the unnecessary files in the channel."),
      by simp [pollInvariantMsg, String.append_assoc]⟩

/-- C1 witness: a channel holding two files makes `poll_channel` raise the
invariant-violation `ValueError` naming the count 2. -/
theorem C1_poll_count_decision_witness :
    pyOr none w2.config.channel_id = some "C1" ∧
    create_bot_client w2.config (pyOr none w2.config.bot_token)
      = Except.ok "xoxb-1" ∧
    poll_channel w2 none none
      = (Except.error (Err.valueError (pollInvariantMsg 2)),
          [Effect.filesList "C1"]) :=
  ⟨rfl, rfl,
    ((C1_poll_count_decision w2 none none "C1" "xoxb-1" rfl rfl).2.2
      (by decide)).1⟩

/-- C2: on a successful listing, `get_file_info` returns `None` (absent, not
an error) when the file count is 0, the parsed metadata (name, private URL,
id) of the single file when the count is exactly 1, and raises the
invariant-violation `ValueError` naming the count when it is greater
than 1. -/
theorem C2_inspect_count_decision (w : World) (cid bt : Option String)
    (ch tok : String)
    (hch : pyOr cid w.config.channel_id = some ch)
    (hbt : create_bot_client w.config (pyOr bt w.config.bot_token)
      = Except.ok tok) :
    (w.files = [] →
      get_file_info w cid bt = (Except.ok none, [Effect.filesList ch])) ∧
    (∀ fd, w.files = [fd] →
      get_file_info w cid bt
        = (Except.ok (some ⟨fd.name, fd.url_private, fd.id⟩),
            [Effect.filesList ch])) ∧
    (1 < w.files.length →
      get_file_info w cid bt
        = (Except.error (Err.valueError (infoInvariantMsg w.files.length)),
            [Effect.filesList ch]) ∧
      ∃ a b, infoInvariantMsg w.files.length
        = a ++ (toString w.files.length ++ b)) :=
  ⟨fun h0 => get_file_info_empty w cid bt ch tok hch hbt h0,
   fun fd hfd => get_file_info_single w cid bt ch tok fd hch hbt hfd,
   fun h2 =>
     ⟨get_file_info_many w cid bt ch tok hch hbt h2,
      ⟨"There are ",
        " files in the channel. " ++
          "There can only be max one file in the channel.",
        by simp [infoInvariantMsg, String.append_assoc]⟩⟩⟩

/-- C2 witness: a channel holding exactly `fdA` makes `get_file_info` return
the parsed metadata of `fdA`. -/
theorem C2_inspect_count_decision_witness :
    pyOr none w1.config.channel_id = some "C1" ∧
    create_bot_client w1.config (pyOr none w1.config.bot_token)
      = Except.ok "xoxb-1" ∧
    w1.files = [fdA] ∧
    get_file_info w1 none none
      = (Except.ok (some ⟨"a.png", "https://x/a", "F1"⟩),
          [Effect.filesList "C1"]) :=
  ⟨rfl, rfl, rfl,
    (C2_inspect_count_decision w1 none none "C1" "xoxb-1" rfl rfl).2.1 fdA rfl⟩

/-- C3: `download_file` on an empty channel returns `None` and performs no
byte fetch; on a channel with exactly one file whose fetch succeeds it writes
the fetched payload to `output_dir/file_name` and returns that path. -/
theorem C3_download_behaviour (w : World) (dir : String) (cid bt : Option String)
    (ch tok : String)
    (hch : pyOr cid w.config.channel_id = some ch)
    (hbt : create_bot_client w.config (pyOr bt w.config.bot_token)
      = Except.ok tok) :
    (w.files = [] →
      download_file w dir cid bt = (Except.ok none, [Effect.filesList ch]) ∧
      ∀ u, Effect.httpGet u ∉ (download_file w dir cid bt).2) ∧
    (∀ fd, w.files = [fd] → w.fetchOk fd.url_private = true →
      download_file w dir cid bt
        = (Except.ok (some (dir ++ "/" ++ fd.name)),
            [Effect.filesList ch, Effect.httpGet fd.url_private,
             Effect.fileWrite (dir ++ "/" ++ fd.name)
               (w.fetchBody fd.url_private)])) := by
  have hbt2 : create_bot_client w.config
      (pyOr (pyOr bt w.config.bot_token) w.config.bot_token) = Except.ok tok := by
    rw [pyOr_pyOr]; exact hbt
  constructor
  · intro h0
    have hinfo := get_file_info_empty w cid (pyOr bt w.config.bot_token)
      ch tok hch hbt2 h0
    constructor
    · simp [download_file, hinfo]
    · intro u
      simp [download_file, hinfo]
  · intro fd hfd hfetch
    have hinfo := get_file_info_single w cid (pyOr bt w.config.bot_token)
      ch tok fd hch hbt2 hfd
    simp [download_file, hinfo, hfetch, writeLoop_iterContent]

/-- C3 witness: downloading the single file `fdA` into `out` writes the
two-byte payload to `out/a.png` and returns that path. -/
theorem C3_download_behaviour_witness :
    pyOr none w1.config.channel_id = some "C1" ∧
    create_bot_client w1.config (pyOr none w1.config.bot_token)
      = Except.ok "xoxb-1" ∧
    w1.files = [fdA] ∧
    w1.fetchOk fdA.url_private = true ∧
    download_file w1 "out" none none
      = (Except.ok (some "out/a.png"),
          [Effect.filesList "C1", Effect.httpGet "https://x/a",
           Effect.fileWrite "out/a.png" [104, 105]]) :=
  ⟨rfl, rfl, rfl, rfl,
    (C3_download_behaviour w1 "out" none none "C1" "xoxb-1" rfl rfl).2
      fdA rfl rfl⟩

/-- C4: `delete_file` on an empty channel returns `False` without emitting a
delete call; on a channel with exactly one file (and a usable user client) it
emits exactly one delete call carrying that file's id and returns `True`. -/
theorem C4_retract_behaviour (w : World) (cid ut : Option String)
    (ch tok : String)
    (hch : pyOr cid w.config.channel_id = some ch)
    (hbt : create_bot_client w.config w.config.bot_token = Except.ok tok) :
    (w.files = [] →
      delete_file w cid ut = (Except.ok false, [Effect.filesList ch]) ∧
      ∀ fid, Effect.filesDelete fid ∉ (delete_file w cid ut).2) ∧
    (∀ fd utok, w.files = [fd] →
      create_user_client w.config ut = Except.ok utok →
      delete_file w cid ut
        = (Except.ok true, [Effect.filesList ch, Effect.filesDelete fd.id]) ∧
      ((delete_file w cid ut).2.filter
          (fun e => match e with
            | Effect.filesDelete fid => fid = fd.id
            | _ => false)).length = 1) := by
  have hch2 : pyOr (some ch) w.config.channel_id = some ch :=
    pyOr_resolved cid _ ch hch
  have hbt2 : create_bot_client w.config (pyOr none w.config.bot_token)
      = Except.ok tok := hbt
  constructor
  · intro h0
    have hinfo := get_file_info_empty w (some ch) none ch tok hch2 hbt2 h0
    constructor
    · simp [delete_file, hch, hinfo]
    · intro fid
      simp [delete_file, hch, hinfo]
  · intro fd utok hfd hut
    have hinfo := get_file_info_single w (some ch) none ch tok fd hch2 hbt2 hfd
    constructor
    · simp [delete_file, hch, hinfo, hut]
    · simp [delete_file, hch, hinfo, hut, List.filter]

/-- C4 witness: deleting from a channel holding exactly `fdA` emits one
delete call for `F1` and returns `True`. -/
theorem C4_retract_behaviour_witness :
    pyOr none w1.config.channel_id = some "C1" ∧
    create_bot_client w1.config w1.config.bot_token = Except.ok "xoxb-1" ∧
    w1.files = [fdA] ∧
    create_user_client w1.config none = Except.ok "xoxp-1" ∧
    delete_file w1 none none
      = (Except.ok true, [Effect.filesList "C1", Effect.filesDelete "F1"]) :=
  ⟨rfl, rfl, rfl, rfl,
    ((C4_retract_behaviour w1 none none "C1" "xoxb-1" rfl rfl).2
      fdA "xoxp-1" rfl rfl).1⟩

/-- C5: `upload_file` on a non-existent local path raises
`FileNotFoundError` with an empty effect trace (no upload call is attempted),
and when `title` is omitted the emitted upload call carries the base name of
the path as its title. -/
theorem C5_publish_checks (w : World) (fp : String)
    (comment cid bt : Option String) (ch tok : String)
    (hch : pyOr cid w.config.channel_id = some ch) :
    (w.pathExists fp = false →
      ∀ title, upload_file w fp title comment cid bt
        = (Except.error (Err.fileNotFoundError ("File not found: " ++ fp)),
            [])) ∧
    (w.pathExists fp = true →
      create_bot_client w.config (pyOr bt w.config.bot_token) = Except.ok tok →
      (upload_file w fp none comment cid bt).2
        = [Effect.filesUpload ch (basename fp) fp comment]) := by
  constructor
  · intro hfp title
    simp [upload_file, hch, hfp]
  · intro hfp hbt
    simp [upload_file, hch, hfp, hbt]

/-- C5 witness: uploading the missing path `nope.txt` fails with
`FileNotFoundError` and no effects; uploading the existing `in/report.pdf`
with no title emits an upload call titled `report.pdf`. -/
theorem C5_publish_checks_witness :
    pyOr none w0.config.channel_id = some "C1" ∧
    w0.pathExists "nope.txt" = false ∧
    w0.pathExists "in/report.pdf" = true ∧
    upload_file w0 "nope.txt" none none none none
      = (Except.error (Err.fileNotFoundError "File not found: nope.txt"),
          []) ∧
    (upload_file w0 "in/report.pdf" none none none none).2
      = [Effect.filesUpload "C1" "report.pdf" "in/report.pdf" none] :=
  ⟨rfl, rfl, rfl,
    (C5_publish_checks w0 "nope.txt" none none none "C1" "xoxb-1" rfl).1
      rfl none,
    (C5_publish_checks w0 "in/report.pdf" none none none "C1" "xoxb-1"
      rfl).2 rfl rfl⟩

/-- C6: with no channel id passed and none configured, every channel
operation fails with the configuration `ValueError` and performs no remote
call at all. -/
theorem C6_missing_channel_config (w : World) (dir fp msg : String)
    (title comment bt ut : Option String)
    (hcfg : w.config.channel_id = none) :
    poll_channel w none bt
      = (Except.error (Err.valueError channelMissingMsg), []) ∧
    get_file_info w none bt
      = (Except.error (Err.valueError channelMissingMsg), []) ∧
    download_file w dir none bt
      = (Except.error (Err.valueError channelMissingMsg), []) ∧
    upload_file w fp title comment none bt
      = (Except.error (Err.valueError channelMissingMsg), []) ∧
    delete_file w none ut
      = (Except.error (Err.valueError channelMissingMsg), []) ∧
    send_message w msg none bt
      = (Except.error (Err.valueError channelMissingMsg), []) := by
  have h : pyOr none w.config.channel_id = none := by simp [pyOr, hcfg]
  refine ⟨?_, ?_, ?_, ?_, ?_, ?_⟩ <;>
    simp [poll_channel, get_file_info, download_file, upload_file,
      delete_file, send_message, h]

/-- C6 witness: in a world with no configured channel id, `poll_channel`
fails with the configuration `ValueError` without any remote call. -/
theorem C6_missing_channel_config_witness :
    wNoChan.config.channel_id = none ∧
    poll_channel wNoChan none none
      = (Except.error (Err.valueError channelMissingMsg), []) :=
  ⟨rfl,
    (C6_missing_channel_config wNoChan "out" "f.txt" "hi" none none none none
      rfl).1⟩

/-- C7: with more than one file in the channel, both `download_file` and
`delete_file` propagate the invariant-violation `ValueError` coming from
`get_file_info` after the single remote read, emitting no byte fetch, no
local write and no delete call. -/
theorem C7_invariant_never_bypassed (w : World) (dir : String)
    (cid ut : Option String) (ch tok : String)
    (hch : pyOr cid w.config.channel_id = some ch)
    (hbt : create_bot_client w.config w.config.bot_token = Except.ok tok)
    (hlen : 1 < w.files.length) :
    download_file w dir cid none
      = (Except.error (Err.valueError (infoInvariantMsg w.files.length)),
          [Effect.filesList ch]) ∧
    delete_file w cid ut
      = (Except.error (Err.valueError (infoInvariantMsg w.files.length)),
          [Effect.filesList ch]) ∧
    (∀ u, Effect.httpGet u ∉ (download_file w dir cid none).2) ∧
    (∀ p c, Effect.fileWrite p c ∉ (download_file w dir cid none).2) ∧
    (∀ fid, Effect.filesDelete fid ∉ (delete_file w cid ut).2) := by
  have hch2 : pyOr (some ch) w.config.channel_id = some ch :=
    pyOr_resolved cid _ ch hch
  have hbt2 : create_bot_client w.config (pyOr none w.config.bot_token)
      = Except.ok tok := hbt
  have hbt3 : create_bot_client w.config
      (pyOr (pyOr none w.config.bot_token) w.config.bot_token)
      = Except.ok tok := by
    rw [pyOr_pyOr]; exact hbt
  have hinfo1 := get_file_info_many w cid (pyOr none w.config.bot_token)
    ch tok hch hbt3 hlen
  have hinfo2 := get_file_info_many w (some ch) none ch tok hch2 hbt2 hlen
  refine ⟨?_, ?_, ?_, ?_, ?_⟩
  · simp [download_file, hinfo1]
  · simp [delete_file, hch, hinfo2]
  · intro u
    simp [download_file, hinfo1]
  · intro p c
    simp [download_file, hinfo1]
  · intro fid
    simp [delete_file, hch, hinfo2]

/-- C7 witness: with two files in the channel, both `download_file` and
`delete_file` fail with the invariant-violation `ValueError` naming the
count 2, each after only the listing call. -/
theorem C7_invariant_never_bypassed_witness :
    pyOr none w2.config.channel_id = some "C1" ∧
    create_bot_client w2.config w2.config.bot_token = Except.ok "xoxb-1" ∧
    1 < w2.files.length ∧
    download_file w2 "out" none none
      = (Except.error (Err.valueError (infoInvariantMsg 2)),
          [Effect.filesList "C1"]) ∧
    delete_file w2 none none
      = (Except.error (Err.valueError (infoInvariantMsg 2)),
          [Effect.filesList "C1"]) :=
  ⟨rfl, rfl, by decide,
    (C7_invariant_never_bypassed w2 "out" none none "C1" "xoxb-1" rfl rfl
      (by decide)).1,
    (C7_invariant_never_bypassed w2 "out" none none "C1" "xoxb-1" rfl rfl
      (by decide)).2.1⟩

/-- C8: a successful `upload_file` returns exactly the `permalink_public`
field read out of the `"file"` object of the upload response. -/
theorem C8_publish_returns_permalink (w : World) (fp : String)
    (title comment cid bt : Option String) (ch tok : String)
    (hch : pyOr cid w.config.channel_id = some ch)
    (hfp : w.pathExists fp = true)
    (hbt : create_bot_client w.config (pyOr bt w.config.bot_token)
      = Except.ok tok) :
    (upload_file w fp title comment cid bt).1
      = Except.ok (w.uploadResponse.file?.bind UploadedFile.permalink_public) := by
  cases title <;> simp [upload_file, hch, hfp, hbt]

/-- C8 witness: uploading `in/report.pdf` returns the permalink carried by
the sample upload response. -/
theorem C8_publish_returns_permalink_witness :
    pyOr none w0.config.channel_id = some "C1" ∧
    w0.pathExists "in/report.pdf" = true ∧
    create_bot_client w0.config (pyOr none w0.config.bot_token)
      = Except.ok "xoxb-1" ∧
    (upload_file w0 "in/report.pdf" none none none none).1
      = Except.ok (some "https://slack/perma/F3") :=
  ⟨rfl, rfl, rfl,
    C8_publish_returns_permalink w0 "in/report.pdf" none none none none
      "C1" "xoxb-1" rfl rfl rfl⟩

/-- C9 counterexample: invoking retract with the elevated/user credential
missing does not always fail — on an empty channel `delete_file` returns
`False` and raises nothing, because the credential is never consulted. -/
theorem C9_counterexample_retract_without_credential :
    wNoUserEmpty.config.user_token = none ∧
    delete_file wNoUserEmpty none none
      = (Except.ok false, [Effect.filesList "C1"]) := by
  exact ⟨rfl, rfl⟩

/-- C9 (amended): the elevated/user credential is read only by retract —
poll, inspect, download, publish and notify are invariant under any change of
the configured user token — and when retract is invoked while a file is
present, a missing elevated credential makes it fail with the configuration
`ValueError` for the user token. -/
theorem C9_user_credential_only_retract (w : World) (ut ut' : Option String) :
    (∀ cid bt, poll_channel (setUserToken w ut) cid bt
      = poll_channel (setUserToken w ut') cid bt) ∧
    (∀ cid bt, get_file_info (setUserToken w ut) cid bt
      = get_file_info (setUserToken w ut') cid bt) ∧
    (∀ dir cid bt, download_file (setUserToken w ut) dir cid bt
      = download_file (setUserToken w ut') dir cid bt) ∧
    (∀ fp title comment cid bt,
      upload_file (setUserToken w ut) fp title comment cid bt
        = upload_file (setUserToken w ut') fp title comment cid bt) ∧
    (∀ msg cid bt, send_message (setUserToken w ut) msg cid bt
      = send_message (setUserToken w ut') msg cid bt) ∧
    (∀ cid ch tok fd,
      pyOr cid w.config.channel_id = some ch →
      create_bot_client w.config w.config.bot_token = Except.ok tok →
      w.files = [fd] →
      w.config.user_token = none →
      delete_file w cid none
        = (Except.error (Err.valueError
            "user_token not provided and USER_TOKEN not in environment"),
            [Effect.filesList ch])) := by
  refine ⟨fun cid bt => rfl, fun cid bt => rfl, fun dir cid bt => rfl,
    fun fp title comment cid bt => rfl, fun msg cid bt => rfl,
    fun cid ch tok fd hch hbt hfd hut => ?_⟩
  have hch2 : pyOr (some ch) w.config.channel_id = some ch :=
    pyOr_resolved cid _ ch hch
  have hbt2 : create_bot_client w.config (pyOr none w.config.bot_token)
      = Except.ok tok := hbt
  have hinfo := get_file_info_single w (some ch) none ch tok fd hch2 hbt2 hfd
  have huc : create_user_client w.config none
      = Except.error (Err.valueError
          "user_token not provided and USER_TOKEN not in environment") := by
    simp [create_user_client, hut]
  simp [delete_file, hch, hinfo, huc]

/-- C9 witness: with one file present and no user token configured, retract
fails with the configuration `ValueError` for the user token. -/
theorem C9_user_credential_only_retract_witness :
    pyOr none wNoUser.config.channel_id = some "C1" ∧
    create_bot_client wNoUser.config wNoUser.config.bot_token
      = Except.ok "xoxb-1" ∧
    wNoUser.files = [fdA] ∧
    wNoUser.config.user_token = none ∧
    delete_file wNoUser none none
      = (Except.error (Err.valueError
          "user_token not provided and USER_TOKEN not in environment"),
          [Effect.filesList "C1"]) :=
  ⟨rfl, rfl, rfl, rfl,
    (C9_user_credential_only_retract wNoUser none none).2.2.2.2.2
      none "C1" "xoxb-1" fdA rfl rfl rfl rfl⟩

/-- C10: on an empty channel, retract returns `False` even though the
elevated/user credential is missing entirely — the credential check sits
behind the presence check, so it is never reached. -/
theorem C10_retract_empty_channel_no_credential (w : World)
    (cid : Option String) (ch tok : String)
    (hch : pyOr cid w.config.channel_id = some ch)
    (hbt : create_bot_client w.config w.config.bot_token = Except.ok tok)
    (_hut : w.config.user_token = none)
    (hfiles : w.files = []) :
    delete_file w cid none = (Except.ok false, [Effect.filesList ch]) := by
  have hch2 : pyOr (some ch) w.config.channel_id = some ch :=
    pyOr_resolved cid _ ch hch
  have hbt2 : create_bot_client w.config (pyOr none w.config.bot_token)
      = Except.ok tok := hbt
  have hinfo := get_file_info_empty w (some ch) none ch tok hch2 hbt2 hfiles
  simp [delete_file, hch, hinfo]

/-- C10 witness: the no-user-token world with an empty channel makes
`delete_file` return `False` with only the listing call. -/
theorem C10_retract_empty_channel_no_credential_witness :
    pyOr none wNoUserEmpty.config.channel_id = some "C1" ∧
    create_bot_client wNoUserEmpty.config wNoUserEmpty.config.bot_token
      = Except.ok "xoxb-1" ∧
    wNoUserEmpty.config.user_token = none ∧
    wNoUserEmpty.files = [] ∧
    delete_file wNoUserEmpty none none
      = (Except.ok false, [Effect.filesList "C1"]) :=
  ⟨rfl, rfl, rfl, rfl,
    C10_retract_empty_channel_no_credential wNoUserEmpty none "C1" "xoxb-1"
      rfl rfl rfl rfl⟩

end SlackUtils
